import Mathlib

/-!
# Books REST API: handlers over a table of books

A shallow embedding of the HTTP handlers of the repository, in both of its
variants:

* the packaged handlers of `internal/api/books/handler.go` and
  `internal/web/handler.go`, the methods `Handler.GetBooks`, `Handler.GetBook`,
  `Handler.CreateBook`, `Handler.UpdateBook`, `Handler.DeleteBook` and
  `Handler.Render`;
* the single-file variant `books.go`, the functions `getBooks`, `getBook`,
  `createBook`, `updateBook`, `deleteBook` and `render`.

The handlers are state-passing functions.  The state is the `books` table
together with the list of SQL statements issued so far; the response writer
is a value recording the status line and the body written.  Everything the
code cannot decide by itself (whether a database call, an encoding or a
template execution reports an error, the clock, the id the database assigns)
is read from an `Env` value, one per request.  Server-side logging
(`log.Printf`, `fmt.Printf`) changes neither the response nor the table and is
left out; `log.Fatal` and `panic` are kept, as the `Outcome` of a handler.
-/

namespace BooksApi

/-! ## Data model (`model.go`, `books.go` lines 19-32) -/

/-- An instant of `time.Time`, kept abstract as a number. -/
abbrev Time := Int

/-- The `Book` struct. -/
structure Book where
  Id : Int
  ISBN : String
  Title : String
  Author : String
  Publisher : String
  CreatedAt : Time
deriving DecidableEq, Repr

/-- The `Books` alias, a slice of `Book`. -/
abbrev Books := List Book

/-- The `Data` struct handed to the templates. -/
structure Data where
  Books : Books
deriving DecidableEq, Repr

/-! ## `strconv.Atoi` -/

/-- Value of a run of decimal digits, `none` as soon as a byte is not a digit. -/
def digitsVal : List Char → Nat → Option Nat
  | [], acc => some acc
  | c :: cs, acc =>
    if c.isDigit then digitsVal cs (acc * 10 + (c.toNat - 48)) else none

/-- Model of `strconv.Atoi` for a 64-bit `int`: an optional sign followed by at
least one decimal digit, the value within the range of `int64`; every other
string (empty, a lone sign, a non-digit, out of range) is an error, `none`. -/
def Atoi (s : String) : Option Int :=
  match s.toList with
  | [] => none
  | c :: cs =>
    let neg : Bool := c = '-'
    let ds : List Char := if c = '-' ∨ c = '+' then cs else c :: cs
    if ds = [] then none
    else
      match digitsVal ds 0 with
      | none => none
      | some n =>
        if neg then (if n ≤ 2 ^ 63 then some (-(n : Int)) else none)
        else (if n < 2 ^ 63 then some (n : Int) else none)

/-! ## The database: one table, and the statements issued on it -/

/-- The SQL statements the handlers issue, with their bound parameters. -/
inductive Stmt where
  | selectAll
  | selectById (id : Int)
  | insertBook (isbn title author publisher : String) (createdAt : Time)
  | updatePublisher (publisher : String) (id : Int)
  | deleteById (id : Int)
deriving DecidableEq, Repr

/-- The database as the handlers see it: the rows of `books` in the order a
`SELECT *` returns them, and every statement sent so far (the newest last). -/
structure State where
  table : List Book
  stmts : List Stmt
deriving DecidableEq, Repr

/-- How a write to the response (a JSON encoding, a template execution) ends:
without error, with an error before anything reached the writer, or with an
error once the writer had been written to. -/
inductive Fault where
  | ok
  | beforeWrite
  | afterWrite
deriving DecidableEq, Repr

/-- What a request cannot decide by itself. -/
structure Env where
  /-- Result of `time.Now()`. -/
  now : Time
  /-- Whether `db.Query` / `db.QueryRow` reports an error. -/
  queryErr : Bool
  /-- Position (from 0) of the delivered row whose `Scan` fails, if any. -/
  scanErr : Option Nat
  /-- When set to `some k`: iteration breaks with an error after `k` rows were
  delivered, and `rows.Err()` is non-nil. -/
  rowsErr : Option Nat
  /-- Whether `db.Exec` reports an error (the statement is then not applied). -/
  execErr : Bool
  /-- The id the database assigns to an inserted row. -/
  insertId : Int
  /-- Whether `result.LastInsertId()` reports an error. -/
  lastInsertIdErr : Bool
  /-- Whether `result.RowsAffected()` reports an error. -/
  rowsAffectedErr : Bool
  /-- How `json.NewEncoder(w).Encode` ends. -/
  encode : Fault
  /-- How `ExecuteTemplate` ends. -/
  tmpl : Fault
  /-- Whether `template.ParseGlob` fails. -/
  parseErr : Bool
  /-- Whether the package-level `tmpl` of `books.go` is still nil when the
  request runs (only `render` assigns it). -/
  tmplNil : Bool

/-- Comparison `id LIKE ?` with an integer parameter: both sides are compared
as decimal strings and the pattern has no wildcard, so it is equality. -/
def idLike (rowId param : Int) : Bool := decide (rowId = param)

/-- `SELECT * FROM books`: the rows the iteration delivers and whether
`rows.Err()` is set; `none` when the query itself fails. -/
def State.query (env : Env) (st : State) : Option (List Book × Bool) × State :=
  let st1 : State := { st with stmts := st.stmts ++ [Stmt.selectAll] }
  if env.queryErr then (none, st1)
  else
    match env.rowsErr with
    | none => (some (st.table, false), st1)
    | some k => (some (st.table.take k, true), st1)

/-- Outcome of `QueryRow(...).Scan(...)`. -/
inductive RowScan where
  | row (b : Book)
  | errNoRows
  | err
deriving DecidableEq, Repr

/-- `SELECT * FROM books WHERE Id LIKE ?` through `QueryRow` and `Scan`: the
first matching row, `sql.ErrNoRows` when there is none, or another error. -/
def State.queryRow (env : Env) (st : State) (id : Int) : RowScan × State :=
  let st1 : State := { st with stmts := st.stmts ++ [Stmt.selectById id] }
  if env.queryErr then (RowScan.err, st1)
  else
    match st.table.find? (fun b => idLike b.Id id) with
    | none => (RowScan.errNoRows, st1)
    | some b => if env.scanErr = some 0 then (RowScan.err, st1) else (RowScan.row b, st1)

/-- The `sql.Result` of an `Exec`. -/
structure ExecResult where
  lastInsertId : Int
  rowsAffected : Int
deriving DecidableEq, Repr

/-- `INSERT INTO books (isbn, title, author, publisher, created_at) VALUES (?,?,?,?,?)`:
the new row comes last, carries the id the database assigns, and its columns
keep the values bound to the statement. -/
def State.execInsert (env : Env) (st : State) (isbn title author publisher : String)
    (createdAt : Time) : Option ExecResult × State :=
  let st1 : State :=
    { st with stmts := st.stmts ++ [Stmt.insertBook isbn title author publisher createdAt] }
  if env.execErr then (none, st1)
  else
    let row : Book :=
      { Id := env.insertId, ISBN := isbn, Title := title, Author := author,
        Publisher := publisher, CreatedAt := createdAt }
    (some { lastInsertId := env.insertId, rowsAffected := 1 },
      { st1 with table := st.table ++ [row] })

/-- `UPDATE books SET publisher = ? WHERE id LIKE ?`.  The affected count is
the number of matching rows whose publisher really changes, the default of the
MySQL driver. -/
def State.execUpdate (env : Env) (st : State) (publisher : String) (id : Int) :
    Option ExecResult × State :=
  let st1 : State := { st with stmts := st.stmts ++ [Stmt.updatePublisher publisher id] }
  if env.execErr then (none, st1)
  else
    let changed : List Book :=
      st.table.filter (fun b => idLike b.Id id && decide (b.Publisher ≠ publisher))
    (some { lastInsertId := 0, rowsAffected := (changed.length : Int) },
      { st1 with
        table := st.table.map (fun b => if idLike b.Id id then { b with Publisher := publisher } else b) })

/-- `DELETE FROM books WHERE id LIKE ?`. -/
def State.execDelete (env : Env) (st : State) (id : Int) : Option ExecResult × State :=
  let st1 : State := { st with stmts := st.stmts ++ [Stmt.deleteById id] }
  if env.execErr then (none, st1)
  else
    let gone : List Book := st.table.filter (fun b => idLike b.Id id)
    (some { lastInsertId := 0, rowsAffected := (gone.length : Int) },
      { st1 with table := st.table.filter (fun b => !idLike b.Id id) })

/-- `result.LastInsertId()`. -/
def ExecResult.LastInsertId (env : Env) (res : ExecResult) : Option Int :=
  if env.lastInsertIdErr then none else some res.lastInsertId

/-- `result.RowsAffected()`. -/
def ExecResult.RowsAffected (env : Env) (res : ExecResult) : Option Int :=
  if env.rowsAffectedErr then none else some res.rowsAffected

/-! ## Requests and responses -/

/-- A request: the route variables of `mux.Vars`, the form values, and the
result of decoding the body as JSON into `var book Book` (`none` when `Decode`
returns an error). -/
structure Request where
  vars : List (String × String)
  form : List (String × String)
  body : Option Book

/-- Lookup `mux.Vars(r)[key]`: the empty string for a missing key. -/
def Request.var (r : Request) (key : String) : String :=
  (r.vars.lookup key).getD ""

/-- Lookup `r.FormValue(key)`: the first value of the key, or the empty string. -/
def Request.FormValue (r : Request) (key : String) : String :=
  (r.form.lookup key).getD ""

/-- A JSON scalar. -/
inductive JVal where
  | num (n : Int)
  | str (s : String)
  | time (t : Time)
deriving DecidableEq, Repr

/-- What a handler writes to the body, piece by piece. -/
inductive Chunk where
  /-- Plain text. -/
  | text (s : String)
  /-- A JSON object, its keys in the order of the encoding. -/
  | json (fields : List (String × JVal))
  /-- The output of executing the named template on the data. -/
  | template (name : String) (data : Option Data)
  /-- The output of a template execution that stopped with an error. -/
  | templateCut (name : String) (data : Option Data)
deriving DecidableEq, Repr

/-- The `http.ResponseWriter`: the header map, the status line once it is
written, and the body written so far.  The field `executed` is a record kept
for the proofs: every `ExecuteTemplate` call made with this writer, with the
template name and the data passed, whether or not the call wrote anything. -/
structure ResponseWriter where
  header : List (String × String)
  status : Option Nat
  body : List Chunk
  executed : List (String × Option Data)
deriving DecidableEq, Repr

/-- A fresh response writer, as the server hands it to a handler. -/
def ResponseWriter.new : ResponseWriter :=
  { header := [], status := none, body := [], executed := [] }

/-- The status the client receives: 200 when the handler wrote none. -/
def ResponseWriter.sentStatus (w : ResponseWriter) : Nat := w.status.getD 200

/-- Setting `w.Header().Set(k, v)`; the header is frozen once the status line is out. -/
def ResponseWriter.setHeader (w : ResponseWriter) (k v : String) : ResponseWriter :=
  match w.status with
  | some _ => w
  | none => { w with header := (w.header.filter (fun p => p.1 ≠ k)) ++ [(k, v)] }

/-- Calling `w.WriteHeader(code)`: only the first call counts. -/
def ResponseWriter.WriteHeader (w : ResponseWriter) (code : Nat) : ResponseWriter :=
  match w.status with
  | some _ => w
  | none => { w with status := some code }

/-- Calling `w.Write`: sends the status 200 first when none was written. -/
def ResponseWriter.Write (w : ResponseWriter) (c : Chunk) : ResponseWriter :=
  let w1 := w.WriteHeader 200
  { w1 with body := w1.body ++ [c] }

/-- The helper `http.Error(w, msg, code)`. -/
def httpError (w : ResponseWriter) (msg : String) (code : Nat) : ResponseWriter :=
  let w1 := w.setHeader "Content-Type" "text/plain; charset=utf-8"
  let w2 := w1.setHeader "X-Content-Type-Options" "nosniff"
  let w3 := w2.WriteHeader code
  w3.Write (Chunk.text (msg ++ "\n"))

def StatusBadRequest : Nat := 400
def StatusInternalServerError : Nat := 500
def StatusCreated : Nat := 201

/-- The JSON object `encoding/json` produces for a `Book`, by its field tags. -/
def Book.toJSON (b : Book) : List (String × JVal) :=
  [("id", JVal.num b.Id), ("isbn", JVal.str b.ISBN), ("title", JVal.str b.Title),
   ("author", JVal.str b.Author), ("publisher", JVal.str b.Publisher),
   ("createdAt", JVal.time b.CreatedAt)]

/-- Running `json.NewEncoder(w).Encode(v)`: the error flag and the writer after. -/
def jsonEncode (env : Env) (w : ResponseWriter) (fields : List (String × JVal)) :
    Bool × ResponseWriter :=
  match env.encode with
  | Fault.ok => (false, w.Write (Chunk.json fields))
  | Fault.beforeWrite => (true, w)
  | Fault.afterWrite => (true, w.Write (Chunk.json fields))

/-- Running `tmpl.ExecuteTemplate(w, name, data)`: the error flag and the writer after. -/
def ExecuteTemplate (env : Env) (w : ResponseWriter) (name : String) (data : Option Data) :
    Bool × ResponseWriter :=
  let w0 : ResponseWriter := { w with executed := w.executed ++ [(name, data)] }
  match env.tmpl with
  | Fault.ok => (false, w0.Write (Chunk.template name data))
  | Fault.beforeWrite => (true, w0)
  | Fault.afterWrite => (true, w0.Write (Chunk.templateCut name data))

/-- How a handler call ends: it returns, the process exits (`log.Fatal`), or
it panics (`template.Must`). -/
inductive Outcome where
  | returned
  | exited
  | panicked
deriving DecidableEq, Repr

/-- What a handler call leaves behind. -/
structure Result where
  w : ResponseWriter
  st : State
  outcome : Outcome
deriving DecidableEq, Repr

/-- The `for rows.Next()` loop with its `rows.Scan`: the books appended, or
`none` when a `Scan` fails.  `k` is the position of the next delivered row. -/
def scanRows (env : Env) : List Book → Nat → Books → Option Books
  | [], _, books => some books
  | row :: rest, k, books =>
    if env.scanErr = some k then none
    else scanRows env rest (k + 1) (books ++ [row])

/-- The format `fmt.Sprintf("Book Id: %v - %v updated successfully", id, title)`. -/
def updateMessage (id : Int) (title : String) : String :=
  "Book Id: " ++ toString id ++ " - " ++ title ++ " updated successfully"

/-! ## The packaged handlers (`internal/api/books/handler.go`, `internal/web/handler.go`) -/

/-- Method `Handler.GetBooks` of `handler.go`, lines 28-61. -/
def Handler.GetBooks (env : Env) (w : ResponseWriter) (st : State) (_r : Request) : Result :=
  match st.query env with
  | (none, st1) =>
    { w := httpError w "Failed to execute the database query" StatusInternalServerError,
      st := st1, outcome := Outcome.returned }
  | (some (rows, rowsErr), st1) =>
    match scanRows env rows 0 [] with
    | none =>
      { w := httpError w "Failed to scan row" StatusInternalServerError,
        st := st1, outcome := Outcome.returned }
    | some books =>
      if rowsErr then
        { w := httpError w "Error occured during row iteration" StatusInternalServerError,
          st := st1, outcome := Outcome.returned }
      else
        let data : Data := { Books := books }
        match ExecuteTemplate env w "book-list" (some data) with
        | (true, w1) => { w := w1, st := st1, outcome := Outcome.exited }
        | (false, w1) => { w := w1, st := st1, outcome := Outcome.returned }

/-- Method `Handler.GetBook` of `handler.go`, lines 63-85. -/
def Handler.GetBook (env : Env) (w : ResponseWriter) (st : State) (r : Request) : Result :=
  match Atoi (r.var "id") with
  | none =>
    { w := httpError w "No matching param in url found" StatusBadRequest,
      st := st, outcome := Outcome.returned }
  | some id =>
    match st.queryRow env id with
    | (RowScan.row book, st1) =>
      match jsonEncode env w book.toJSON with
      | (true, w1) =>
        { w := httpError w1 "Failed to encode book to JSON" StatusInternalServerError,
          st := st1, outcome := Outcome.returned }
      | (false, w1) => { w := w1, st := st1, outcome := Outcome.returned }
    | (_, st1) =>
      { w := httpError w "Query does not exist in Database" StatusInternalServerError,
        st := st1, outcome := Outcome.returned }

/-- Method `Handler.CreateBook` of `handler.go`, lines 87-112. -/
def Handler.CreateBook (env : Env) (w : ResponseWriter) (st : State) (r : Request) : Result :=
  let isbn := r.FormValue "isbn"
  let title := r.FormValue "title"
  let author := r.FormValue "author"
  let publisher := r.FormValue "publisher"
  let createdAt := env.now
  match st.execInsert env isbn title author publisher createdAt with
  | (none, st1) =>
    { w := httpError w "Error inserting record" StatusInternalServerError,
      st := st1, outcome := Outcome.returned }
  | (some result, st1) =>
    match result.LastInsertId env with
    | none =>
      { w := httpError w "Error retrieving last insert ID" StatusInternalServerError,
        st := st1, outcome := Outcome.returned }
    | some _bookId => Handler.GetBooks env w st1 r

/-- Method `Handler.UpdateBook` of `handler.go`, lines 114-159. -/
def Handler.UpdateBook (env : Env) (w : ResponseWriter) (st : State) (r : Request) : Result :=
  match Atoi (r.var "id") with
  | none =>
    { w := httpError w "No matching param found" StatusBadRequest,
      st := st, outcome := Outcome.returned }
  | some id =>
    match r.body with
    | none =>
      { w := httpError w "Invalid Request Payload" StatusBadRequest,
        st := st, outcome := Outcome.returned }
    | some book =>
      match st.execUpdate env book.Publisher id with
      | (none, st1) =>
        { w := httpError w "Error: Could not update book" StatusInternalServerError,
          st := st1, outcome := Outcome.returned }
      | (some result, st1) =>
        match result.RowsAffected env with
        | none =>
          { w := httpError w "Error determining rows affected" StatusInternalServerError,
            st := st1, outcome := Outcome.returned }
        | some row =>
          let w1 := w.setHeader "Content-Type" "application/json"
          let w2 := w1.WriteHeader StatusCreated
          let response : List (String × JVal) :=
            [("message", JVal.str (updateMessage book.Id book.Title)),
             ("rows_updated", JVal.num row)]
          match jsonEncode env w2 response with
          | (true, w3) =>
            { w := httpError w3 "Error encoding response" StatusInternalServerError,
              st := st1, outcome := Outcome.returned }
          | (false, w3) => { w := w3, st := st1, outcome := Outcome.returned }

/-- Method `Handler.DeleteBook` of `handler.go`, lines 161-186. -/
def Handler.DeleteBook (env : Env) (w : ResponseWriter) (st : State) (r : Request) : Result :=
  match Atoi (r.var "id") with
  | none =>
    { w := httpError w "No matching param found" StatusInternalServerError,
      st := st, outcome := Outcome.returned }
  | some id =>
    match st.execDelete env id with
    | (none, st1) =>
      { w := httpError w "No rows with matching id found" StatusInternalServerError,
        st := st1, outcome := Outcome.returned }
    | (some result, st1) =>
      match result.RowsAffected env with
      | none =>
        { w := httpError w "Error retrieving affected rows" StatusInternalServerError,
          st := st1, outcome := Outcome.returned }
      | some _rowsDeleted => Handler.GetBooks env w st1 r

/-- Method `Handler.Render` of `internal/web/handler.go`, lines 19-24. -/
def Handler.Render (env : Env) (w : ResponseWriter) (st : State) (_r : Request) : Result :=
  match ExecuteTemplate env w "index.html" none with
  | (true, w1) =>
    { w := httpError w1 "Error executing template" StatusInternalServerError,
      st := st, outcome := Outcome.returned }
  | (false, w1) => { w := w1, st := st, outcome := Outcome.returned }

/-! ## The single-file variant (`books.go`) -/

/-- Function `render` of `books.go`, lines 79-85: the templates are parsed on
every request, under `template.Must`. -/
def render (env : Env) (w : ResponseWriter) (st : State) (_r : Request) : Result :=
  if env.parseErr then { w := w, st := st, outcome := Outcome.panicked }
  else
    match ExecuteTemplate env w "index.html" none with
    | (true, w1) =>
      { w := httpError w1 "Error executing template" StatusInternalServerError,
        st := st, outcome := Outcome.returned }
    | (false, w1) => { w := w1, st := st, outcome := Outcome.returned }

/-- Function `getBooks` of `books.go`, lines 87-120.  The call of
`ExecuteTemplate` on the package-level `tmpl` panics while `tmpl` is nil. -/
def getBooks (env : Env) (w : ResponseWriter) (st : State) (_r : Request) : Result :=
  match st.query env with
  | (none, st1) =>
    { w := httpError w "Failed to execute the database query" StatusInternalServerError,
      st := st1, outcome := Outcome.returned }
  | (some (rows, rowsErr), st1) =>
    match scanRows env rows 0 [] with
    | none =>
      { w := httpError w "Failed to scan row" StatusInternalServerError,
        st := st1, outcome := Outcome.returned }
    | some books =>
      if rowsErr then
        { w := httpError w "Error occured during row iteration" StatusInternalServerError,
          st := st1, outcome := Outcome.returned }
      else
        let data : Data := { Books := books }
        if env.tmplNil then
          { w := { w with executed := w.executed ++ [("book-list", some data)] },
            st := st1, outcome := Outcome.panicked }
        else
          match ExecuteTemplate env w "book-list" (some data) with
          | (true, w1) => { w := w1, st := st1, outcome := Outcome.exited }
          | (false, w1) => { w := w1, st := st1, outcome := Outcome.returned }

/-- Function `getBook` of `books.go`, lines 122-144. -/
def getBook (env : Env) (w : ResponseWriter) (st : State) (r : Request) : Result :=
  match Atoi (r.var "id") with
  | none =>
    { w := httpError w "No matching param in url found" StatusBadRequest,
      st := st, outcome := Outcome.returned }
  | some id =>
    match st.queryRow env id with
    | (RowScan.row book, st1) =>
      match jsonEncode env w book.toJSON with
      | (true, w1) =>
        { w := httpError w1 "Failed to encode book to JSON" StatusInternalServerError,
          st := st1, outcome := Outcome.returned }
      | (false, w1) => { w := w1, st := st1, outcome := Outcome.returned }
    | (_, st1) =>
      { w := httpError w "Query does not exist in Database" StatusInternalServerError,
        st := st1, outcome := Outcome.returned }

/-- Function `createBook` of `books.go`, lines 146-169. -/
def createBook (env : Env) (w : ResponseWriter) (st : State) (r : Request) : Result :=
  let isbn := r.FormValue "isbn"
  let title := r.FormValue "title"
  let author := r.FormValue "author"
  let publisher := r.FormValue "publisher"
  let createdAt := env.now
  match st.execInsert env isbn title author publisher createdAt with
  | (none, st1) =>
    { w := httpError w "Error inserting record" StatusInternalServerError,
      st := st1, outcome := Outcome.returned }
  | (some result, st1) =>
    match result.LastInsertId env with
    | none =>
      { w := httpError w "Error retrieving last insert ID" StatusInternalServerError,
        st := st1, outcome := Outcome.returned }
    | some _bookId => { w := w, st := st1, outcome := Outcome.returned }

/-- Function `updateBook` of `books.go`, lines 171-216. -/
def updateBook (env : Env) (w : ResponseWriter) (st : State) (r : Request) : Result :=
  match Atoi (r.var "id") with
  | none =>
    { w := httpError w "No matching param found" StatusBadRequest,
      st := st, outcome := Outcome.returned }
  | some id =>
    match r.body with
    | none =>
      { w := httpError w "Invalid Request Payload" StatusBadRequest,
        st := st, outcome := Outcome.returned }
    | some book =>
      match st.execUpdate env book.Publisher id with
      | (none, st1) =>
        { w := httpError w "Error: Could not update book" StatusInternalServerError,
          st := st1, outcome := Outcome.returned }
      | (some result, st1) =>
        match result.RowsAffected env with
        | none =>
          { w := httpError w "Error determining rows affected" StatusInternalServerError,
            st := st1, outcome := Outcome.returned }
        | some row =>
          let w1 := w.setHeader "Content-Type" "application/json"
          let w2 := w1.WriteHeader StatusCreated
          let response : List (String × JVal) :=
            [("message", JVal.str (updateMessage book.Id book.Title)),
             ("rows_updated", JVal.num row)]
          match jsonEncode env w2 response with
          | (true, w3) =>
            { w := httpError w3 "Error encoding response" StatusInternalServerError,
              st := st1, outcome := Outcome.returned }
          | (false, w3) => { w := w3, st := st1, outcome := Outcome.returned }

/-- Function `deleteBook` of `books.go`, lines 218-242. -/
def deleteBook (env : Env) (w : ResponseWriter) (st : State) (r : Request) : Result :=
  match Atoi (r.var "id") with
  | none =>
    { w := httpError w "No matching param found" StatusInternalServerError,
      st := st, outcome := Outcome.returned }
  | some id =>
    match st.execDelete env id with
    | (none, st1) =>
      { w := httpError w "No rows with matching id found" StatusInternalServerError,
        st := st1, outcome := Outcome.returned }
    | (some result, st1) =>
      match result.RowsAffected env with
      | none =>
        { w := httpError w "Error retrieving affected rows" StatusInternalServerError,
          st := st1, outcome := Outcome.returned }
      | some _rowsDeleted => { w := w, st := st1, outcome := Outcome.returned }

/-! ## Reading a response -/

/-- The value under `key` when the chunk is a JSON object. -/
def Chunk.field (c : Chunk) (key : String) : Option JVal :=
  match c with
  | Chunk.json fields => fields.lookup key
  | _ => none

/-- The keys of the JSON object when the chunk is one. -/
def Chunk.keys (c : Chunk) : Option (List String) :=
  match c with
  | Chunk.json fields => some (fields.map Prod.fst)
  | _ => none

/-! ## Sample values -/

/-- A request with the given `id` route variable and nothing else. -/
def reqId (id : String) : Request := { vars := [("id", id)], form := [], body := none }

/-- An environment in which nothing fails. -/
def envOk : Env :=
  { now := 1700000000, queryErr := false, scanErr := none, rowsErr := none, execErr := false,
    insertId := 1, lastInsertIdErr := false, rowsAffectedErr := false, encode := Fault.ok,
    tmpl := Fault.ok, parseErr := false, tmplNil := false }

/-- A one-row table. -/
def sampleBook : Book :=
  { Id := 7, ISBN := "111", Title := "Go", Author := "X", Publisher := "Y", CreatedAt := 5 }

/-! ## Facts about the response writer and the database model -/

theorem httpError_new (msg : String) (code : Nat) :
    httpError ResponseWriter.new msg code =
      { header := [("Content-Type", "text/plain; charset=utf-8"),
                   ("X-Content-Type-Options", "nosniff")],
        status := some code, body := [Chunk.text (msg ++ "\n")], executed := [] } := by
  rfl

theorem getBook_eq_GetBook (env : Env) (w : ResponseWriter) (st : State) (r : Request) :
    getBook env w st r = Handler.GetBook env w st r := by
  rfl

theorem updateBook_eq_UpdateBook (env : Env) (w : ResponseWriter) (st : State) (r : Request) :
    updateBook env w st r = Handler.UpdateBook env w st r := by
  rfl

/-! ## Get by id: the id that does not parse -/

/-- C1: when the `id` path segment does not parse as an integer, `GetBook`
(packaged and single-file) answers 400 and returns with the database state as
it found it: the table is the same and no statement was issued. -/
theorem GetBook_unparsable_id (env : Env) (st : State) (r : Request)
    (h : Atoi (r.var "id") = none) :
    (Handler.GetBook env ResponseWriter.new st r).w.status = some 400 ∧
    (Handler.GetBook env ResponseWriter.new st r).st = st ∧
    (Handler.GetBook env ResponseWriter.new st r).outcome = Outcome.returned ∧
    (getBook env ResponseWriter.new st r).w.status = some 400 ∧
    (getBook env ResponseWriter.new st r).st = st ∧
    (getBook env ResponseWriter.new st r).outcome = Outcome.returned := by
  simp [Handler.GetBook, getBook, h, httpError_new, StatusBadRequest]

/-- The empty string, a non-digit string and a number beyond `int64` do not
parse, and `GetBook` answers each with 400 without touching the database. -/
theorem GetBook_unparsable_id_witness :
    (Atoi ((reqId "").var "id") = none ∧ Atoi ((reqId "abc").var "id") = none ∧
      Atoi ((reqId "9223372036854775808").var "id") = none) ∧
    ((Handler.GetBook envOk ResponseWriter.new ⟨[sampleBook], []⟩ (reqId "")).w.status = some 400 ∧
      (Handler.GetBook envOk ResponseWriter.new ⟨[sampleBook], []⟩ (reqId "")).st
        = ⟨[sampleBook], []⟩) ∧
    ((Handler.GetBook envOk ResponseWriter.new ⟨[sampleBook], []⟩ (reqId "abc")).w.status
        = some 400 ∧
      (Handler.GetBook envOk ResponseWriter.new ⟨[sampleBook], []⟩ (reqId "abc")).st
        = ⟨[sampleBook], []⟩) ∧
    ((getBook envOk ResponseWriter.new ⟨[sampleBook], []⟩
        (reqId "9223372036854775808")).w.status = some 400 ∧
      (getBook envOk ResponseWriter.new ⟨[sampleBook], []⟩
        (reqId "9223372036854775808")).st = ⟨[sampleBook], []⟩) :=
  ⟨⟨by decide, by decide, by decide⟩,
   ⟨(GetBook_unparsable_id envOk ⟨[sampleBook], []⟩ (reqId "") (by decide)).1,
    (GetBook_unparsable_id envOk ⟨[sampleBook], []⟩ (reqId "") (by decide)).2.1⟩,
   ⟨(GetBook_unparsable_id envOk ⟨[sampleBook], []⟩ (reqId "abc") (by decide)).1,
    (GetBook_unparsable_id envOk ⟨[sampleBook], []⟩ (reqId "abc") (by decide)).2.1⟩,
   ⟨(GetBook_unparsable_id envOk ⟨[sampleBook], []⟩ (reqId "9223372036854775808")
      (by decide)).2.2.2.1,
    (GetBook_unparsable_id envOk ⟨[sampleBook], []⟩ (reqId "9223372036854775808")
      (by decide)).2.2.2.2.1⟩⟩

/-! ## Delete: the id that does not parse -/

/-- C7: on the path id `abc`, which does not parse, `DeleteBook` (packaged and
single-file) issues no statement but answers 500, where `GetBook` and
`UpdateBook` answer the same request with 400. -/
theorem DeleteBook_unparsable_id_status :
    Atoi ((reqId "abc").var "id") = none ∧
    (Handler.DeleteBook envOk ResponseWriter.new ⟨[sampleBook], []⟩ (reqId "abc")).w.status
      = some 500 ∧
    (deleteBook envOk ResponseWriter.new ⟨[sampleBook], []⟩ (reqId "abc")).w.status
      = some 500 ∧
    (Handler.DeleteBook envOk ResponseWriter.new ⟨[sampleBook], []⟩ (reqId "abc")).w.status
      ≠ some StatusBadRequest ∧
    (deleteBook envOk ResponseWriter.new ⟨[sampleBook], []⟩ (reqId "abc")).w.status
      ≠ some StatusBadRequest ∧
    (Handler.DeleteBook envOk ResponseWriter.new ⟨[sampleBook], []⟩ (reqId "abc")).st
      = ⟨[sampleBook], []⟩ ∧
    (deleteBook envOk ResponseWriter.new ⟨[sampleBook], []⟩ (reqId "abc")).st
      = ⟨[sampleBook], []⟩ ∧
    (Handler.GetBook envOk ResponseWriter.new ⟨[sampleBook], []⟩ (reqId "abc")).w.status
      = some StatusBadRequest ∧
    (Handler.UpdateBook envOk ResponseWriter.new ⟨[sampleBook], []⟩ (reqId "abc")).w.status
      = some StatusBadRequest := by
  decide

/-! ## Failures inside a handler -/

/-- C9: when the execution of the `book-list` template fails, `GetBooks`
(packaged and single-file) does not return: the process exits through
`log.Fatal`, and no status line and no message were written.  The packaged
`CreateBook` and `DeleteBook` end the same way, through their call of
`GetBooks`, whereas `Render` answers the same failure with 500 and returns.
The single-file `render` panics when its per-request template parse fails. -/
theorem GetBooks_template_failure_exits :
    (Handler.GetBooks { envOk with tmpl := Fault.beforeWrite } ResponseWriter.new
        ⟨[sampleBook], []⟩ (reqId "")).outcome = Outcome.exited ∧
    (Handler.GetBooks { envOk with tmpl := Fault.beforeWrite } ResponseWriter.new
        ⟨[sampleBook], []⟩ (reqId "")).w.status = none ∧
    (Handler.GetBooks { envOk with tmpl := Fault.beforeWrite } ResponseWriter.new
        ⟨[sampleBook], []⟩ (reqId "")).w.body = [] ∧
    (getBooks { envOk with tmpl := Fault.beforeWrite } ResponseWriter.new
        ⟨[sampleBook], []⟩ (reqId "")).outcome = Outcome.exited ∧
    (Handler.CreateBook { envOk with tmpl := Fault.beforeWrite } ResponseWriter.new
        ⟨[sampleBook], []⟩ (reqId "")).outcome = Outcome.exited ∧
    (Handler.DeleteBook { envOk with tmpl := Fault.beforeWrite } ResponseWriter.new
        ⟨[sampleBook], []⟩ (reqId "7")).outcome = Outcome.exited ∧
    (Handler.Render { envOk with tmpl := Fault.beforeWrite } ResponseWriter.new
        ⟨[sampleBook], []⟩ (reqId "")).outcome = Outcome.returned ∧
    (Handler.Render { envOk with tmpl := Fault.beforeWrite } ResponseWriter.new
        ⟨[sampleBook], []⟩ (reqId "")).w.status = some 500 ∧
    (render { envOk with parseErr := true } ResponseWriter.new
        ⟨[sampleBook], []⟩ (reqId "")).outcome = Outcome.panicked := by
  decide

/-! ## Update -/

theorem UpdateBook_st (env : Env) (w : ResponseWriter) (st : State) (r : Request)
    (id : Int) (book : Book)
    (hid : Atoi (r.var "id") = some id) (hbody : r.body = some book)
    (hexec : env.execErr = false) :
    (Handler.UpdateBook env w st r).st =
      { table := st.table.map
          (fun b => if idLike b.Id id then { b with Publisher := book.Publisher } else b),
        stmts := st.stmts ++ [Stmt.updatePublisher book.Publisher id] } := by
  simp only [Handler.UpdateBook, hid, hbody, State.execUpdate, hexec]
  cases hra : env.rowsAffectedErr <;> cases henc : env.encode <;>
    simp [ExecResult.RowsAffected, hra, jsonEncode, henc]

theorem UpdateBook_response (env : Env) (st : State) (r : Request) (id : Int) (book : Book)
    (hid : Atoi (r.var "id") = some id) (hbody : r.body = some book)
    (hexec : env.execErr = false) (hra : env.rowsAffectedErr = false)
    (henc : env.encode = Fault.ok) :
    (Handler.UpdateBook env ResponseWriter.new st r).w =
      { header := [("Content-Type", "application/json")],
        status := some 201,
        body := [Chunk.json
          [("message", JVal.str (updateMessage book.Id book.Title)),
           ("rows_updated", JVal.num
              ((st.table.filter
                (fun b => idLike b.Id id && decide (b.Publisher ≠ book.Publisher))).length : Int))]],
        executed := [] } ∧
    (Handler.UpdateBook env ResponseWriter.new st r).outcome = Outcome.returned := by
  simp [Handler.UpdateBook, hid, hbody, State.execUpdate, hexec, ExecResult.RowsAffected, hra,
    jsonEncode, henc, ResponseWriter.new, ResponseWriter.setHeader, ResponseWriter.WriteHeader,
    ResponseWriter.Write, StatusCreated]

/-- C2: a successful `UpdateBook` (packaged and single-file) keeps the number
and the order of the rows; each row keeps its id, isbn, title, author and
createdAt; a row whose id is the path id gets the publisher of the body, every
other row is unchanged; and two bodies with the same publisher give the same
table, whatever their other fields. -/
theorem UpdateBook_changes_only_publisher (env : Env) (w : ResponseWriter) (st : State)
    (r : Request) (id : Int) (book : Book)
    (hid : Atoi (r.var "id") = some id) (hbody : r.body = some book)
    (hexec : env.execErr = false) :
    (updateBook env w st r).st = (Handler.UpdateBook env w st r).st ∧
    (Handler.UpdateBook env w st r).st.table.length = st.table.length ∧
    (∀ (k : Nat) (old : Book), st.table[k]? = some old →
      ∃ new : Book, (Handler.UpdateBook env w st r).st.table[k]? = some new ∧
        new.Id = old.Id ∧ new.ISBN = old.ISBN ∧ new.Title = old.Title ∧
        new.Author = old.Author ∧ new.CreatedAt = old.CreatedAt ∧
        (old.Id = id → new.Publisher = book.Publisher) ∧
        (old.Id ≠ id → new = old)) ∧
    (∀ (r2 : Request) (book2 : Book), Atoi (r2.var "id") = some id → r2.body = some book2 →
      book2.Publisher = book.Publisher →
      (Handler.UpdateBook env w st r2).st.table = (Handler.UpdateBook env w st r).st.table) := by
  refine ⟨by rw [updateBook_eq_UpdateBook], ?_, ?_, ?_⟩
  · rw [UpdateBook_st env w st r id book hid hbody hexec]
    simp
  · intro k old hk
    rw [UpdateBook_st env w st r id book hid hbody hexec]
    by_cases hold : old.Id = id
    · refine ⟨{ old with Publisher := book.Publisher }, ?_, rfl, rfl, rfl, rfl, rfl, ?_, ?_⟩
      · simp [List.getElem?_map, hk, idLike, hold]
      · intro _; rfl
      · intro hne; exact absurd hold hne
    · refine ⟨old, ?_, rfl, rfl, rfl, rfl, rfl, ?_, ?_⟩
      · simp [List.getElem?_map, hk, idLike, hold]
      · intro h; exact absurd h hold
      · intro _; rfl
  · intro r2 book2 hid2 hbody2 hpub
    rw [UpdateBook_st env w st r id book hid hbody hexec,
      UpdateBook_st env w st r2 id book2 hid2 hbody2 hexec, hpub]

/-- An update on row 7 of a two-row table: the body carries another id, isbn,
title, author and createdAt, and only the publisher of row 7 changes. -/
theorem UpdateBook_changes_only_publisher_witness :
    (Atoi (Request.var ⟨[("id", "7")], [], some ⟨99, "zz", "Other", "Q", "NewPub", 42⟩⟩ "id")
        = some 7 ∧ envOk.execErr = false) ∧
    (Handler.UpdateBook envOk ResponseWriter.new
        ⟨[sampleBook, ⟨8, "222", "Lean", "Z", "W", 6⟩], []⟩
        ⟨[("id", "7")], [], some ⟨99, "zz", "Other", "Q", "NewPub", 42⟩⟩).st.table
      = [⟨7, "111", "Go", "X", "NewPub", 5⟩, ⟨8, "222", "Lean", "Z", "W", 6⟩] ∧
    (Handler.UpdateBook envOk ResponseWriter.new
        ⟨[sampleBook, ⟨8, "222", "Lean", "Z", "W", 6⟩], []⟩
        ⟨[("id", "7")], [], some ⟨99, "zz", "Other", "Q", "NewPub", 42⟩⟩).st.table.length
      = 2 :=
  ⟨⟨by decide, rfl⟩, by decide,
   (UpdateBook_changes_only_publisher envOk ResponseWriter.new
      ⟨[sampleBook, ⟨8, "222", "Lean", "Z", "W", 6⟩], []⟩
      ⟨[("id", "7")], [], some ⟨99, "zz", "Other", "Q", "NewPub", 42⟩⟩ 7
      ⟨99, "zz", "Other", "Q", "NewPub", 42⟩ (by decide) rfl rfl).2.1⟩

/-- C3: when no row has the path id, `UpdateBook` (packaged and single-file)
with a body that decodes leaves the table as it was and answers 201 with a
JSON object whose `rows_updated` is 0. -/
theorem UpdateBook_no_matching_row (env : Env) (st : State) (r : Request) (id : Int)
    (book : Book)
    (hid : Atoi (r.var "id") = some id) (hbody : r.body = some book)
    (hmiss : ∀ b ∈ st.table, b.Id ≠ id)
    (hexec : env.execErr = false) (hra : env.rowsAffectedErr = false)
    (henc : env.encode = Fault.ok) :
    (Handler.UpdateBook env ResponseWriter.new st r).st.table = st.table ∧
    (Handler.UpdateBook env ResponseWriter.new st r).w.status = some 201 ∧
    (Handler.UpdateBook env ResponseWriter.new st r).w.body =
      [Chunk.json [("message", JVal.str (updateMessage book.Id book.Title)),
                   ("rows_updated", JVal.num 0)]] ∧
    (Handler.UpdateBook env ResponseWriter.new st r).outcome = Outcome.returned ∧
    updateBook env ResponseWriter.new st r = Handler.UpdateBook env ResponseWriter.new st r := by
  have hnone : ∀ b ∈ st.table, idLike b.Id id = false := by
    intro b hb
    simp [idLike, hmiss b hb]
  have hfilter : st.table.filter
      (fun b => idLike b.Id id && decide (b.Publisher ≠ book.Publisher)) = [] := by
    rw [List.filter_eq_nil_iff]
    intro b hb
    simp [hnone b hb]
  have hmap : st.table.map
      (fun b => if idLike b.Id id then { b with Publisher := book.Publisher } else b)
      = st.table := by
    conv_rhs => rw [← List.map_id st.table]
    apply List.map_congr_left
    intro b hb
    simp [hnone b hb]
  obtain ⟨hw, hout⟩ := UpdateBook_response env st r id book hid hbody hexec hra henc
  refine ⟨?_, ?_, ?_, hout, updateBook_eq_UpdateBook _ _ _ _⟩
  · rw [UpdateBook_st env ResponseWriter.new st r id book hid hbody hexec]
    exact hmap
  · rw [hw]
  · rw [hw, hfilter]
    rfl

/-- An update on id 9 of a table whose only row has id 7. -/
theorem UpdateBook_no_matching_row_witness :
    (Atoi (Request.var ⟨[("id", "9")], [], some ⟨9, "", "Nine", "", "NewPub", 0⟩⟩ "id") = some 9 ∧
      (∀ b ∈ [sampleBook], b.Id ≠ 9)) ∧
    (Handler.UpdateBook envOk ResponseWriter.new ⟨[sampleBook], []⟩
        ⟨[("id", "9")], [], some ⟨9, "", "Nine", "", "NewPub", 0⟩⟩).st.table = [sampleBook] ∧
    (Handler.UpdateBook envOk ResponseWriter.new ⟨[sampleBook], []⟩
        ⟨[("id", "9")], [], some ⟨9, "", "Nine", "", "NewPub", 0⟩⟩).w.status = some 201 ∧
    (Handler.UpdateBook envOk ResponseWriter.new ⟨[sampleBook], []⟩
        ⟨[("id", "9")], [], some ⟨9, "", "Nine", "", "NewPub", 0⟩⟩).w.body =
      [Chunk.json [("message", JVal.str (updateMessage 9 "Nine")),
                   ("rows_updated", JVal.num 0)]] :=
  ⟨⟨by decide, by decide⟩,
   (UpdateBook_no_matching_row envOk ⟨[sampleBook], []⟩
      ⟨[("id", "9")], [], some ⟨9, "", "Nine", "", "NewPub", 0⟩⟩ 9
      ⟨9, "", "Nine", "", "NewPub", 0⟩ (by decide) rfl (by decide) rfl rfl rfl).1,
   (UpdateBook_no_matching_row envOk ⟨[sampleBook], []⟩
      ⟨[("id", "9")], [], some ⟨9, "", "Nine", "", "NewPub", 0⟩⟩ 9
      ⟨9, "", "Nine", "", "NewPub", 0⟩ (by decide) rfl (by decide) rfl rfl rfl).2.1,
   (UpdateBook_no_matching_row envOk ⟨[sampleBook], []⟩
      ⟨[("id", "9")], [], some ⟨9, "", "Nine", "", "NewPub", 0⟩⟩ 9
      ⟨9, "", "Nine", "", "NewPub", 0⟩ (by decide) rfl (by decide) rfl rfl rfl).2.2.1⟩

/-- C10: a successful `UpdateBook` (packaged and single-file) writes one JSON
object with the keys `message` and `rows_updated` and nothing else, the message
being "Book Id: <id> - <title> updated successfully" with the id and the title
of the request body; any other successful request with the same body, on any
table and any path id, carries the same message. -/
theorem UpdateBook_message_from_body (env : Env) (st : State) (r : Request) (id : Int)
    (book : Book)
    (hid : Atoi (r.var "id") = some id) (hbody : r.body = some book)
    (hexec : env.execErr = false) (hra : env.rowsAffectedErr = false)
    (henc : env.encode = Fault.ok) :
    (∃ n : Int, (Handler.UpdateBook env ResponseWriter.new st r).w.body =
      [Chunk.json
        [("message", JVal.str
            ("Book Id: " ++ toString book.Id ++ " - " ++ book.Title ++ " updated successfully")),
         ("rows_updated", JVal.num n)]]) ∧
    (Handler.UpdateBook env ResponseWriter.new st r).w.body.map Chunk.keys =
      [some ["message", "rows_updated"]] ∧
    (Handler.UpdateBook env ResponseWriter.new st r).w.status = some 201 ∧
    (∀ (env2 : Env) (st2 : State) (r2 : Request) (id2 : Int),
      Atoi (r2.var "id") = some id2 → r2.body = some book →
      env2.execErr = false → env2.rowsAffectedErr = false → env2.encode = Fault.ok →
      (Handler.UpdateBook env2 ResponseWriter.new st2 r2).w.body.map
          (fun c => c.field "message") =
        (Handler.UpdateBook env ResponseWriter.new st r).w.body.map
          (fun c => c.field "message")) ∧
    updateBook env ResponseWriter.new st r = Handler.UpdateBook env ResponseWriter.new st r := by
  obtain ⟨hw, _⟩ := UpdateBook_response env st r id book hid hbody hexec hra henc
  refine ⟨⟨_, by rw [hw]; rfl⟩, by rw [hw]; rfl, by rw [hw], ?_, updateBook_eq_UpdateBook _ _ _ _⟩
  intro env2 st2 r2 id2 hid2 hbody2 hexec2 hra2 henc2
  obtain ⟨hw2, _⟩ := UpdateBook_response env2 st2 r2 id2 book hid2 hbody2 hexec2 hra2 henc2
  rw [hw, hw2]
  rfl

/-- The body names book 99 "Other" while the path names row 7, titled "Go":
the message speaks of 99 and "Other". -/
theorem UpdateBook_message_from_body_witness :
    (Atoi (Request.var ⟨[("id", "7")], [], some ⟨99, "zz", "Other", "Q", "NewPub", 42⟩⟩ "id")
      = some 7) ∧
    (∃ n : Int, (Handler.UpdateBook envOk ResponseWriter.new ⟨[sampleBook], []⟩
        ⟨[("id", "7")], [], some ⟨99, "zz", "Other", "Q", "NewPub", 42⟩⟩).w.body =
      [Chunk.json
        [("message", JVal.str
            ("Book Id: " ++ toString (99 : Int) ++ " - " ++ "Other" ++ " updated successfully")),
         ("rows_updated", JVal.num n)]]) ∧
    ("Book Id: " ++ toString (99 : Int) ++ " - " ++ "Other" ++ " updated successfully"
      = "Book Id: 99 - Other updated successfully") :=
  ⟨by decide,
   (UpdateBook_message_from_body envOk ⟨[sampleBook], []⟩
      ⟨[("id", "7")], [], some ⟨99, "zz", "Other", "Q", "NewPub", 42⟩⟩ 7
      ⟨99, "zz", "Other", "Q", "NewPub", 42⟩ (by decide) rfl rfl rfl rfl).1,
   by decide⟩

/-! ## Listing, and the handlers that end with it -/

theorem GetBooks_st (env : Env) (w : ResponseWriter) (st : State) (r : Request) :
    (Handler.GetBooks env w st r).st = { st with stmts := st.stmts ++ [Stmt.selectAll] } := by
  unfold Handler.GetBooks State.query
  cases hq : env.queryErr
  · cases hr : env.rowsErr <;> simp only [Bool.false_eq_true, if_false] <;>
      split <;> (try split) <;> (try split) <;> rfl
  · rfl

/-! ## Get by id after create and after delete -/

theorem GetBook_found (env : Env) (st : State) (r : Request) (id : Int) (b : Book)
    (hid : Atoi (r.var "id") = some id)
    (hfind : st.table.find? (fun x => idLike x.Id id) = some b)
    (hq : env.queryErr = false) (hs : env.scanErr ≠ some 0) (he : env.encode = Fault.ok) :
    (Handler.GetBook env ResponseWriter.new st r).w =
      { header := [], status := some 200, body := [Chunk.json b.toJSON], executed := [] } := by
  simp [Handler.GetBook, hid, State.queryRow, hq, hfind, hs, jsonEncode, he,
    ResponseWriter.new, ResponseWriter.Write, ResponseWriter.WriteHeader]

theorem GetBook_not_found (env : Env) (st : State) (r : Request) (id : Int)
    (hid : Atoi (r.var "id") = some id)
    (hfind : st.table.find? (fun x => idLike x.Id id) = none) :
    (Handler.GetBook env ResponseWriter.new st r).w.status = some 500 ∧
    (Handler.GetBook env ResponseWriter.new st r).w.body =
      [Chunk.text "Query does not exist in Database\n"] := by
  cases hq : env.queryErr <;>
    simp [Handler.GetBook, hid, State.queryRow, hq, hfind, httpError_new,
      StatusInternalServerError]

theorem CreateBook_table (env : Env) (w : ResponseWriter) (st : State) (r : Request)
    (hexec : env.execErr = false) (hlast : env.lastInsertIdErr = false) :
    (Handler.CreateBook env w st r).st.table =
      st.table ++ [{ Id := env.insertId, ISBN := r.FormValue "isbn",
                     Title := r.FormValue "title", Author := r.FormValue "author",
                     Publisher := r.FormValue "publisher", CreatedAt := env.now }] ∧
    (createBook env w st r).st.table = (Handler.CreateBook env w st r).st.table := by
  simp [Handler.CreateBook, createBook, State.execInsert, hexec, ExecResult.LastInsertId, hlast,
    GetBooks_st]

theorem DeleteBook_table (env : Env) (w : ResponseWriter) (st : State) (r : Request) (i : Int)
    (hid : Atoi (r.var "id") = some i) (hexec : env.execErr = false) :
    (Handler.DeleteBook env w st r).st.table = st.table.filter (fun b => !idLike b.Id i) ∧
    (deleteBook env w st r).st.table = st.table.filter (fun b => !idLike b.Id i) := by
  cases hra : env.rowsAffectedErr <;>
    simp [Handler.DeleteBook, deleteBook, hid, State.execDelete, hexec, ExecResult.RowsAffected,
      hra, GetBooks_st]

/-- C4: after a successful `CreateBook` (packaged or single-file), on any table
none of whose rows already carries the id the database assigns, a `GetBook` on
that id answers 200 with the JSON of the book whose id is the assigned id,
whose isbn, title, author and publisher are the four form values, and whose
createdAt is the clock reading of the create request. -/
theorem CreateBook_then_GetBook (env env2 : Env) (w : ResponseWriter) (st : State)
    (r r2 : Request)
    (hexec : env.execErr = false) (hlast : env.lastInsertIdErr = false)
    (hfresh : ∀ b ∈ st.table, b.Id ≠ env.insertId)
    (hid : Atoi (r2.var "id") = some env.insertId)
    (hq : env2.queryErr = false) (hs : env2.scanErr ≠ some 0) (he : env2.encode = Fault.ok) :
    (Handler.GetBook env2 ResponseWriter.new (Handler.CreateBook env w st r).st r2).w.status
      = some 200 ∧
    (Handler.GetBook env2 ResponseWriter.new (Handler.CreateBook env w st r).st r2).w.body =
      [Chunk.json (Book.toJSON
        { Id := env.insertId, ISBN := r.FormValue "isbn", Title := r.FormValue "title",
          Author := r.FormValue "author", Publisher := r.FormValue "publisher",
          CreatedAt := env.now })] ∧
    (getBook env2 ResponseWriter.new (createBook env w st r).st r2).w =
      (Handler.GetBook env2 ResponseWriter.new (Handler.CreateBook env w st r).st r2).w := by
  obtain ⟨htab, htab2⟩ := CreateBook_table env w st r hexec hlast
  have hnone : st.table.find? (fun x => idLike x.Id env.insertId) = none := by
    rw [List.find?_eq_none]
    intro b hb
    simp [idLike, hfresh b hb]
  have hfind : (Handler.CreateBook env w st r).st.table.find?
      (fun x => idLike x.Id env.insertId) =
      some { Id := env.insertId, ISBN := r.FormValue "isbn", Title := r.FormValue "title",
             Author := r.FormValue "author", Publisher := r.FormValue "publisher",
             CreatedAt := env.now } := by
    rw [htab, List.find?_append, hnone]
    simp [idLike]
  have hfind2 : (createBook env w st r).st.table.find?
      (fun x => idLike x.Id env.insertId) =
      some { Id := env.insertId, ISBN := r.FormValue "isbn", Title := r.FormValue "title",
             Author := r.FormValue "author", Publisher := r.FormValue "publisher",
             CreatedAt := env.now } := by
    rw [htab2]
    exact hfind
  have h1 := GetBook_found env2 _ r2 env.insertId _ hid hfind hq hs he
  have h2 := GetBook_found env2 _ r2 env.insertId _ hid hfind2 hq hs he
  refine ⟨by rw [h1], by rw [h1], ?_⟩
  rw [getBook_eq_GetBook, h1, h2]

/-- The create of isbn "978-0", title "T", author "A", publisher "P" on a
one-row table, the database assigning id 8, then the get of id 8. -/
theorem CreateBook_then_GetBook_witness :
    ((∀ b ∈ [sampleBook], b.Id ≠ 8) ∧ Atoi ((reqId "8").var "id") = some 8) ∧
    (Handler.GetBook envOk ResponseWriter.new
      (Handler.CreateBook { envOk with insertId := 8 } ResponseWriter.new ⟨[sampleBook], []⟩
        ⟨[], [("isbn", "978-0"), ("title", "T"), ("author", "A"), ("publisher", "P")],
          none⟩).st (reqId "8")).w.body =
      [Chunk.json [("id", JVal.num 8), ("isbn", JVal.str "978-0"), ("title", JVal.str "T"),
        ("author", JVal.str "A"), ("publisher", JVal.str "P"),
        ("createdAt", JVal.time 1700000000)]] :=
  ⟨⟨by decide, by decide⟩,
   (CreateBook_then_GetBook { envOk with insertId := 8 } envOk ResponseWriter.new
      ⟨[sampleBook], []⟩
      ⟨[], [("isbn", "978-0"), ("title", "T"), ("author", "A"), ("publisher", "P")], none⟩
      (reqId "8") rfl rfl (by decide) (by decide) rfl (by decide) rfl).2.1⟩

/-- C5: after a `DeleteBook` on id `i` whose statement succeeds (packaged or
single-file), the table is the old one without the rows of id `i`: no row has
id `i`, the rows of another id are the same rows; a `GetBook` on `i` then finds
no row and answers 500. -/
theorem DeleteBook_then_GetBook (env env2 : Env) (w : ResponseWriter) (st : State)
    (r r2 : Request) (i : Int)
    (hid : Atoi (r.var "id") = some i) (hexec : env.execErr = false)
    (hid2 : Atoi (r2.var "id") = some i) :
    (∀ b ∈ (Handler.DeleteBook env w st r).st.table, b.Id ≠ i) ∧
    (Handler.DeleteBook env w st r).st.table = st.table.filter (fun b => decide (b.Id ≠ i)) ∧
    (∀ b : Book, b.Id ≠ i →
      ((Handler.DeleteBook env w st r).st.table.count b = st.table.count b)) ∧
    (Handler.DeleteBook env w st r).st.table.find? (fun b => idLike b.Id i) = none ∧
    (Handler.GetBook env2 ResponseWriter.new (Handler.DeleteBook env w st r).st r2).w.status
      = some 500 ∧
    (deleteBook env w st r).st.table = (Handler.DeleteBook env w st r).st.table ∧
    (getBook env2 ResponseWriter.new (deleteBook env w st r).st r2).w.status = some 500 := by
  obtain ⟨htab, htab2⟩ := DeleteBook_table env w st r i hid hexec
  have hfind : (Handler.DeleteBook env w st r).st.table.find? (fun b => idLike b.Id i) = none := by
    rw [htab, List.find?_eq_none]
    intro b hb
    simp [idLike] at hb ⊢
    exact hb.2
  have hfind2 : (deleteBook env w st r).st.table.find? (fun b => idLike b.Id i) = none := by
    rw [htab2, ← htab]
    exact hfind
  refine ⟨?_, ?_, ?_, hfind, (GetBook_not_found env2 _ r2 i hid2 hfind).1, ?_, ?_⟩
  · intro b hb
    rw [htab] at hb
    simp [idLike] at hb
    exact hb.2
  · rw [htab]
    simp [idLike]
  · intro b hb
    rw [htab, List.count_filter]
    simp [idLike, hb]
  · rw [htab, htab2]
  · rw [getBook_eq_GetBook]
    exact (GetBook_not_found env2 _ r2 i hid2 hfind2).1

/-- The delete of id 7 on a two-row table, then the get of id 7. -/
theorem DeleteBook_then_GetBook_witness :
    (Atoi ((reqId "7").var "id") = some 7 ∧ (∃ b ∈ [sampleBook, ⟨8, "222", "Lean", "Z", "W", 6⟩],
      b.Id = 7)) ∧
    (Handler.DeleteBook envOk ResponseWriter.new
      ⟨[sampleBook, ⟨8, "222", "Lean", "Z", "W", 6⟩], []⟩ (reqId "7")).st.table
      = [⟨8, "222", "Lean", "Z", "W", 6⟩] ∧
    (Handler.GetBook envOk ResponseWriter.new
      (Handler.DeleteBook envOk ResponseWriter.new
        ⟨[sampleBook, ⟨8, "222", "Lean", "Z", "W", 6⟩], []⟩ (reqId "7")).st
      (reqId "7")).w.status = some 500 :=
  ⟨⟨by decide, by decide⟩, by decide,
   (DeleteBook_then_GetBook envOk envOk ResponseWriter.new
      ⟨[sampleBook, ⟨8, "222", "Lean", "Z", "W", 6⟩], []⟩ (reqId "7") (reqId "7") 7
      (by decide) rfl (by decide)).2.2.2.2.1⟩

/-! ## The list handler -/

theorem scanRows_all (env : Env) (rows : List Book) (k : Nat) (acc : Books)
    (h : ∀ j, env.scanErr = some j → j < k ∨ k + rows.length ≤ j) :
    scanRows env rows k acc = some (acc ++ rows) := by
  induction rows generalizing k acc with
  | nil => simp [scanRows]
  | cons row rest ih =>
    have hk : env.scanErr ≠ some k := by
      intro hj
      rcases h k hj with h1 | h1
      · exact Nat.lt_irrefl k h1
      · simp only [List.length_cons] at h1
        omega
    have hrest : ∀ j, env.scanErr = some j → j < k + 1 ∨ k + 1 + rest.length ≤ j := by
      intro j hj
      rcases h j hj with h1 | h1
      · left; omega
      · simp only [List.length_cons] at h1
        right; omega
    rw [scanRows, if_neg hk, ih (k + 1) (acc ++ [row]) hrest]
    simp

theorem scanRows_fails (env : Env) (rows : List Book) (k : Nat) (acc : Books) (j : Nat)
    (hj : env.scanErr = some j) (hk : k ≤ j) (hlt : j < k + rows.length) :
    scanRows env rows k acc = none := by
  induction rows generalizing k acc with
  | nil => simp only [List.length_nil] at hlt; omega
  | cons row rest ih =>
    by_cases hjk : j = k
    · rw [scanRows, if_pos (by rw [hj, hjk])]
    · have hne : env.scanErr ≠ some k := by
        rw [hj]
        intro h
        exact hjk (Option.some.inj h)
      rw [scanRows, if_neg hne]
      apply ih
      · omega
      · simp only [List.length_cons] at hlt
        omega

theorem GetBooks_listed (env : Env) (st : State) (r : Request)
    (hq : env.queryErr = false)
    (hs : ∀ j, env.scanErr = some j → st.table.length ≤ j)
    (hr : env.rowsErr = none) :
    Handler.GetBooks env ResponseWriter.new st r =
      { w := (ExecuteTemplate env ResponseWriter.new "book-list" (some ⟨st.table⟩)).2,
        st := { st with stmts := st.stmts ++ [Stmt.selectAll] },
        outcome := if (ExecuteTemplate env ResponseWriter.new "book-list" (some ⟨st.table⟩)).1
          then Outcome.exited else Outcome.returned } := by
  have hscan : scanRows env st.table 0 [] = some st.table := by
    have := scanRows_all env st.table 0 [] (fun j hj => Or.inr (by simpa using hs j hj))
    simpa using this
  simp only [Handler.GetBooks, State.query, hq, hr, hscan, Bool.false_eq_true, if_false]
  cases ht : env.tmpl <;> simp [ExecuteTemplate, ht]

theorem GetBooks_failed (env : Env) (st : State) (r : Request)
    (h : env.queryErr = true ∨ (∃ j, env.scanErr = some j ∧ j < st.table.length) ∨
      env.rowsErr ≠ none) :
    ∃ msg : String,
      Handler.GetBooks env ResponseWriter.new st r =
        { w := httpError ResponseWriter.new msg StatusInternalServerError,
          st := { st with stmts := st.stmts ++ [Stmt.selectAll] },
          outcome := Outcome.returned } ∧
      getBooks env ResponseWriter.new st r = Handler.GetBooks env ResponseWriter.new st r := by
  cases hq : env.queryErr
  · cases hr : env.rowsErr with
    | none =>
      rcases h with h | ⟨j, hj, hlt⟩ | h
      · rw [hq] at h; exact absurd h (by decide)
      · have hscan : scanRows env st.table 0 [] = none :=
          scanRows_fails env st.table 0 [] j hj (Nat.zero_le j) (by omega)
        exact ⟨"Failed to scan row", by
          simp [Handler.GetBooks, getBooks, State.query, hq, hr, hscan]⟩
      · exact absurd hr h
    | some k =>
      cases hscan : scanRows env (st.table.take k) 0 [] with
      | none =>
        exact ⟨"Failed to scan row", by
          simp [Handler.GetBooks, getBooks, State.query, hq, hr, hscan]⟩
      | some books =>
        exact ⟨"Error occured during row iteration", by
          simp [Handler.GetBooks, getBooks, State.query, hq, hr, hscan]⟩
  · exact ⟨"Failed to execute the database query", by
      simp [Handler.GetBooks, getBooks, State.query, hq]⟩

/-- C6, as amended: when the query succeeds, no `Scan` of a row fails and the
row iteration ends without error, `GetBooks` (packaged and single-file) passes
to the `book-list` template exactly the rows of the table, in the order of the
table, so as many books as the table has rows; when the query fails, a `Scan`
of a row fails or the iteration fails, it answers 500 with a single text
message, the template is not executed, and no book is written. -/
theorem GetBooks_all_rows_or_500 (env : Env) (st : State) (r : Request) :
    (env.queryErr = false → (∀ j, env.scanErr = some j → st.table.length ≤ j) →
      env.rowsErr = none →
        (Handler.GetBooks env ResponseWriter.new st r).w.executed
          = [("book-list", some ⟨st.table⟩)] ∧
        (getBooks env ResponseWriter.new st r).w.executed
          = [("book-list", some ⟨st.table⟩)] ∧
        ((Handler.GetBooks env ResponseWriter.new st r).w.executed.map
          (fun c => (c.2.map (fun d => d.Books.length)))) = [some st.table.length] ∧
        (env.tmpl = Fault.ok →
          (Handler.GetBooks env ResponseWriter.new st r).w.body
            = [Chunk.template "book-list" (some ⟨st.table⟩)] ∧
          (Handler.GetBooks env ResponseWriter.new st r).w.status = some 200)) ∧
    ((env.queryErr = true ∨ (∃ j, env.scanErr = some j ∧ j < st.table.length) ∨
        env.rowsErr ≠ none) →
        (Handler.GetBooks env ResponseWriter.new st r).w.status = some 500 ∧
        (∃ msg : String,
          (Handler.GetBooks env ResponseWriter.new st r).w.body = [Chunk.text msg]) ∧
        (Handler.GetBooks env ResponseWriter.new st r).w.executed = [] ∧
        (Handler.GetBooks env ResponseWriter.new st r).outcome = Outcome.returned ∧
        getBooks env ResponseWriter.new st r = Handler.GetBooks env ResponseWriter.new st r) := by
  constructor
  · intro hq hs hr
    have hscan : scanRows env st.table 0 [] = some st.table := by
      have := scanRows_all env st.table 0 [] (fun j hj => Or.inr (by simpa using hs j hj))
      simpa using this
    have hP := GetBooks_listed env st r hq hs hr
    refine ⟨?_, ?_, ?_, ?_⟩
    · rw [hP]
      cases ht : env.tmpl <;> simp [ExecuteTemplate, ht, ResponseWriter.new,
        ResponseWriter.Write, ResponseWriter.WriteHeader]
    · simp only [getBooks, State.query, hq, hr, hscan, Bool.false_eq_true, if_false]
      cases hn : env.tmplNil
      · cases ht : env.tmpl <;> simp [ExecuteTemplate, ht, ResponseWriter.new,
          ResponseWriter.Write, ResponseWriter.WriteHeader]
      · simp [ResponseWriter.new]
    · rw [hP]
      cases ht : env.tmpl <;> simp [ExecuteTemplate, ht, ResponseWriter.new,
        ResponseWriter.Write, ResponseWriter.WriteHeader]
    · intro ht
      rw [hP]
      simp [ExecuteTemplate, ht, ResponseWriter.new, ResponseWriter.Write,
        ResponseWriter.WriteHeader]
  · intro h
    obtain ⟨msg, hmsg, hsame⟩ := GetBooks_failed env st r h
    refine ⟨?_, ⟨msg ++ "\n", ?_⟩, ?_, ?_, hsame⟩
    · rw [hmsg, httpError_new]; rfl
    · rw [hmsg, httpError_new]
    · rw [hmsg, httpError_new]
    · rw [hmsg]

/-- A two-row table listed without failure, and the same table listed while
the `Scan` of its second row fails. -/
theorem GetBooks_all_rows_or_500_witness :
    (envOk.queryErr = false ∧ envOk.rowsErr = none ∧
      (∀ j, envOk.scanErr = some j → [sampleBook, (⟨8, "222", "Lean", "Z", "W", 6⟩ : Book)].length ≤ j)) ∧
    (Handler.GetBooks envOk ResponseWriter.new
        ⟨[sampleBook, ⟨8, "222", "Lean", "Z", "W", 6⟩], []⟩ (reqId "")).w.executed
      = [("book-list", some ⟨[sampleBook, ⟨8, "222", "Lean", "Z", "W", 6⟩]⟩)] ∧
    (Handler.GetBooks { envOk with scanErr := some 1 } ResponseWriter.new
        ⟨[sampleBook, ⟨8, "222", "Lean", "Z", "W", 6⟩], []⟩ (reqId "")).w.status = some 500 ∧
    (Handler.GetBooks { envOk with scanErr := some 1 } ResponseWriter.new
        ⟨[sampleBook, ⟨8, "222", "Lean", "Z", "W", 6⟩], []⟩ (reqId "")).w.body
      = [Chunk.text "Failed to scan row\n"] :=
  ⟨⟨rfl, rfl, by intro j hj; cases hj⟩,
   ((GetBooks_all_rows_or_500 envOk ⟨[sampleBook, ⟨8, "222", "Lean", "Z", "W", 6⟩], []⟩
      (reqId "")).1 rfl (by intro j hj; cases hj) rfl).1,
   ((GetBooks_all_rows_or_500 { envOk with scanErr := some 1 }
      ⟨[sampleBook, ⟨8, "222", "Lean", "Z", "W", 6⟩], []⟩
      (reqId "")).2 (Or.inr (Or.inl ⟨1, rfl, by decide⟩))).1,
   by decide⟩

/-- C6, the claim as first stated fails: on a one-row table the query succeeds
and the `Scan` of the one row succeeds, then the iteration ends with an error;
`GetBooks` answers 500 and passes nothing to the template. -/
theorem GetBooks_iteration_error_counterexample :
    ({ envOk with rowsErr := some 1 } : Env).queryErr = false ∧
    ({ envOk with rowsErr := some 1 } : Env).scanErr = none ∧
    (State.query { envOk with rowsErr := some 1 } ⟨[sampleBook], []⟩).1
      = some ([sampleBook], true) ∧
    scanRows { envOk with rowsErr := some 1 } [sampleBook] 0 [] = some [sampleBook] ∧
    (Handler.GetBooks { envOk with rowsErr := some 1 } ResponseWriter.new
        ⟨[sampleBook], []⟩ (reqId "")).w.executed = [] ∧
    (Handler.GetBooks { envOk with rowsErr := some 1 } ResponseWriter.new
        ⟨[sampleBook], []⟩ (reqId "")).w.executed ≠ [("book-list", some ⟨[sampleBook]⟩)] ∧
    (Handler.GetBooks { envOk with rowsErr := some 1 } ResponseWriter.new
        ⟨[sampleBook], []⟩ (reqId "")).w.status = some 500 ∧
    (getBooks { envOk with rowsErr := some 1 } ResponseWriter.new
        ⟨[sampleBook], []⟩ (reqId "")).w.executed = [] := by
  decide

/-! ## Create: the response after a successful insert -/

/-- C8, as amended: when the insert and the retrieval of the new id succeed,
the single-file `createBook` returns with the response writer untouched, so
the client gets the implicit 200 and an empty body, while the packaged
`CreateBook` ends as `GetBooks` does on the table that holds the new row: its
response is the one `GetBooks` writes. -/
theorem CreateBook_success_response (env : Env) (st : State) (r : Request)
    (hexec : env.execErr = false) (hlast : env.lastInsertIdErr = false) :
    (createBook env ResponseWriter.new st r).w = ResponseWriter.new ∧
    (createBook env ResponseWriter.new st r).w.body = [] ∧
    (createBook env ResponseWriter.new st r).w.status = none ∧
    (createBook env ResponseWriter.new st r).w.sentStatus = 200 ∧
    (createBook env ResponseWriter.new st r).outcome = Outcome.returned ∧
    Handler.CreateBook env ResponseWriter.new st r =
      Handler.GetBooks env ResponseWriter.new (createBook env ResponseWriter.new st r).st r := by
  simp [createBook, Handler.CreateBook, State.execInsert, hexec, ExecResult.LastInsertId, hlast,
    ResponseWriter.new, ResponseWriter.sentStatus]

/-- The create of isbn "978-0", title "T", author "A", publisher "P" on the
empty table: nothing written by `createBook`, the list of one book written by
the packaged `CreateBook`. -/
theorem CreateBook_success_response_witness :
    (createBook envOk ResponseWriter.new ⟨[], []⟩
      ⟨[], [("isbn", "978-0"), ("title", "T"), ("author", "A"), ("publisher", "P")],
        none⟩).w.body = [] ∧
    (createBook envOk ResponseWriter.new ⟨[], []⟩
      ⟨[], [("isbn", "978-0"), ("title", "T"), ("author", "A"), ("publisher", "P")],
        none⟩).w.sentStatus = 200 ∧
    Handler.GetBooks envOk ResponseWriter.new
      (createBook envOk ResponseWriter.new ⟨[], []⟩
        ⟨[], [("isbn", "978-0"), ("title", "T"), ("author", "A"), ("publisher", "P")],
          none⟩).st
      ⟨[], [("isbn", "978-0"), ("title", "T"), ("author", "A"), ("publisher", "P")], none⟩ =
      { w := { header := [], status := some 200,
               body := [Chunk.template "book-list"
                 (some ⟨[⟨1, "978-0", "T", "A", "P", 1700000000⟩]⟩)],
               executed := [("book-list", some ⟨[⟨1, "978-0", "T", "A", "P", 1700000000⟩]⟩)] },
        st := ⟨[⟨1, "978-0", "T", "A", "P", 1700000000⟩],
               [Stmt.insertBook "978-0" "T" "A" "P" 1700000000, Stmt.selectAll]⟩,
        outcome := Outcome.returned } :=
  ⟨(CreateBook_success_response envOk ⟨[], []⟩
      ⟨[], [("isbn", "978-0"), ("title", "T"), ("author", "A"), ("publisher", "P")], none⟩
      rfl rfl).2.1,
   (CreateBook_success_response envOk ⟨[], []⟩
      ⟨[], [("isbn", "978-0"), ("title", "T"), ("author", "A"), ("publisher", "P")], none⟩
      rfl rfl).2.2.2.1,
   by decide⟩

/-- C8, the claim as first stated fails for the packaged handler: the insert
and the retrieval of the id succeed, and `CreateBook` writes the `book-list`
fragment to the body; when the list query then fails, it writes the status 500
and an error message. -/
theorem CreateBook_packaged_counterexample :
    envOk.execErr = false ∧ envOk.lastInsertIdErr = false ∧
    (Handler.CreateBook envOk ResponseWriter.new ⟨[], []⟩
      ⟨[], [("isbn", "978-0"), ("title", "T"), ("author", "A"), ("publisher", "P")],
        none⟩).st.table = [⟨1, "978-0", "T", "A", "P", 1700000000⟩] ∧
    (Handler.CreateBook envOk ResponseWriter.new ⟨[], []⟩
      ⟨[], [("isbn", "978-0"), ("title", "T"), ("author", "A"), ("publisher", "P")],
        none⟩).w.body =
      [Chunk.template "book-list" (some ⟨[⟨1, "978-0", "T", "A", "P", 1700000000⟩]⟩)] ∧
    (Handler.CreateBook envOk ResponseWriter.new ⟨[], []⟩
      ⟨[], [("isbn", "978-0"), ("title", "T"), ("author", "A"), ("publisher", "P")],
        none⟩).w.body ≠ [] ∧
    (Handler.CreateBook envOk ResponseWriter.new ⟨[], []⟩
      ⟨[], [("isbn", "978-0"), ("title", "T"), ("author", "A"), ("publisher", "P")],
        none⟩).w.status = some 200 ∧
    (Handler.CreateBook { envOk with queryErr := true } ResponseWriter.new ⟨[], []⟩
      ⟨[], [("isbn", "978-0"), ("title", "T"), ("author", "A"), ("publisher", "P")],
        none⟩).st.table = [⟨1, "978-0", "T", "A", "P", 1700000000⟩] ∧
    (Handler.CreateBook { envOk with queryErr := true } ResponseWriter.new ⟨[], []⟩
      ⟨[], [("isbn", "978-0"), ("title", "T"), ("author", "A"), ("publisher", "P")],
        none⟩).w.status = some 500 ∧
    (Handler.CreateBook { envOk with queryErr := true } ResponseWriter.new ⟨[], []⟩
      ⟨[], [("isbn", "978-0"), ("title", "T"), ("author", "A"), ("publisher", "P")],
        none⟩).w.body = [Chunk.text "Failed to execute the database query\n"] := by
  decide

end BooksApi
